import Mathlib

set_option linter.unnecessarySeqFocus false

/-!
Shallow embedding of `src/packet01-parsing/xdp_prog_kern.c`.

A frame is modelled as a total byte function `b : Nat → Nat` (every read is
taken mod 256, since memory holds bytes) together with `data_end : Nat`, the
frame length in bytes; pointers into the frame are byte offsets, with
`data = 0`.  A 16-bit wire field is modelled by its network-order
(big-endian) numeric value: the C code compares the raw network-order load
against pre-swapped (`bpf_htons`) constants, which selects exactly the same
byte patterns, and `bpf_ntohs` of a little-endian load of bytes `(hi, lo)`
is `hi*256 + lo`, the value used here.

Struct sizes and field offsets from the Linux UAPI headers used by the C:
`struct ethhdr` is 14 bytes with `h_proto` at offset 12; `struct vlan_hdr`
is 4 bytes with `h_vlan_encapsulated_proto` at offset 2; `struct ipv6hdr`
is 40 bytes with `nexthdr` at offset 6; `struct iphdr` is 20 bytes with
`ihl` the low nibble of byte 0 (little-endian bitfield) and `protocol` at
offset 9; `struct icmphdr` and `struct icmp6hdr` are 8 bytes with the type
at offset 0 and the echo `sequence` field at offsets 6..7.
-/

/-- Action code `XDP_DROP` (= 1). -/
def XDP_DROP : Nat := 1

/-- Action code `XDP_PASS` (= 2). -/
def XDP_PASS : Nat := 2

/-- EtherType for IPv4, host order. -/
def ETH_P_IP : Nat := 0x0800

/-- EtherType for IPv6, host order. -/
def ETH_P_IPV6 : Nat := 0x86DD

/-- EtherType for 802.1Q VLAN, host order. -/
def ETH_P_8021Q : Nat := 0x8100

/-- EtherType for 802.1AD (QinQ) VLAN, host order. -/
def ETH_P_8021AD : Nat := 0x88A8

/-- The byte of the frame at offset `i`. -/
def byteAt (b : Nat → Nat) (i : Nat) : Nat := b i % 256

/-- A 16-bit big-endian (network-order) field at offsets `i`, `i+1`. -/
def be16 (b : Nat → Nat) (i : Nat) : Nat := byteAt b i * 256 + byteAt b (i + 1)

/-- `proto_is_vlan` from the C: true iff the (network-order) EtherType is
802.1Q or 802.1AD.  The C compares network-order loads against
`bpf_htons` constants, equivalently the big-endian values used here. -/
def proto_is_vlan (h_proto : Nat) : Bool :=
  h_proto == ETH_P_8021Q || h_proto == ETH_P_8021AD

/-- Result of one parsing helper: the `int` return value (`-1` on failure),
the cursor `nh->pos` after the call, and the out-parameter header pointer,
`some` (its offset) exactly when the helper wrote it. -/
structure ParseResult where
  ret : Int
  pos : Nat
  hdr : Option Nat
deriving Repr, DecidableEq

/-- `parse_ethhdr`.  Checks the 14-byte Ethernet header fits, advances the
cursor, then walks up to `VLAN_MAX_DEPTH = 2` VLAN tags (unrolled here as
in the C's `#pragma unroll`).  Note the loop advances `nh->pos` past tag
`i` only after seeing that tag `i`'s encapsulated proto is itself VLAN;
on a non-VLAN encapsulated proto it breaks first.  Offsets: `h_proto` at
`pos+12`; tag 0 occupies `pos+14..pos+17` with inner proto at `pos+16`;
tag 1 occupies `pos+18..pos+21` with inner proto at `pos+20`. -/
def parse_ethhdr (b : Nat → Nat) (data_end pos : Nat) : ParseResult :=
  if pos + 14 > data_end then ⟨-1, pos, none⟩
  else if proto_is_vlan (be16 b (pos + 12)) then
    if pos + 18 > data_end then ⟨(be16 b (pos + 12) : Int), pos + 14, some pos⟩
    else if proto_is_vlan (be16 b (pos + 16)) then
      if pos + 22 > data_end then ⟨(be16 b (pos + 16) : Int), pos + 18, some pos⟩
      else if proto_is_vlan (be16 b (pos + 20)) then
        ⟨(be16 b (pos + 20) : Int), pos + 22, some pos⟩
      else ⟨(be16 b (pos + 20) : Int), pos + 18, some pos⟩
    else ⟨(be16 b (pos + 16) : Int), pos + 14, some pos⟩
  else ⟨(be16 b (pos + 12) : Int), pos + 14, some pos⟩

/-- `parse_ip6hdr`: 40-byte fixed header, returns `nexthdr` (byte 6). -/
def parse_ip6hdr (b : Nat → Nat) (data_end pos : Nat) : ParseResult :=
  if pos + 40 > data_end then ⟨-1, pos, none⟩
  else ⟨(byteAt b (pos + 6) : Int), pos + 40, some pos⟩

/-- `parse_iphdr`: checks the fixed 20-byte header fits, computes
`hdrsize = ihl * 4` (low nibble of byte 0), checks the full header fits,
then advances by `hdrsize` and returns `protocol` (byte 9). -/
def parse_iphdr (b : Nat → Nat) (data_end pos : Nat) : ParseResult :=
  if pos + 20 > data_end then ⟨-1, pos, none⟩
  else if pos + byteAt b pos % 16 * 4 > data_end then ⟨-1, pos, none⟩
  else ⟨(byteAt b (pos + 9) : Int), pos + byteAt b pos % 16 * 4, some pos⟩

/-- `parse_icmp6hdr`: 8-byte fixed header, returns `icmp6_type` (byte 0). -/
def parse_icmp6hdr (b : Nat → Nat) (data_end pos : Nat) : ParseResult :=
  if pos + 8 > data_end then ⟨-1, pos, none⟩
  else ⟨(byteAt b pos : Int), pos + 8, some pos⟩

/-- `parse_icmphdr`: 8-byte fixed header, returns `type` (byte 0). -/
def parse_icmphdr (b : Nat → Nat) (data_end pos : Nat) : ParseResult :=
  if pos + 8 > data_end then ⟨-1, pos, none⟩
  else ⟨(byteAt b pos : Int), pos + 8, some pos⟩

/-- `xdp_parser_func`.  Starts the cursor at `data` (offset 0), parses the
Ethernet header, and dispatches on the returned EtherType.  The return
values of `parse_ip6hdr` / `parse_iphdr` are ignored, exactly as in the C;
only the ICMP parse result gates the parity test.  The sequence number is
read through the ICMP out-parameter pointer at offset `hdr + 6`, converted
from network order (`bpf_ntohs`), and tested for parity. -/
def xdp_parser_func (b : Nat → Nat) (data_end : Nat) : Nat :=
  let r2 := parse_ethhdr b data_end 0
  if r2.ret = ((ETH_P_IPV6 : Nat) : Int) then
    let r3 := parse_ip6hdr b data_end r2.pos
    let r4 := parse_icmp6hdr b data_end r3.pos
    if r4.ret < 0 then XDP_PASS
    else if be16 b (r4.hdr.getD 0 + 6) % 2 = 1 then XDP_PASS
    else XDP_DROP
  else if r2.ret = ((ETH_P_IP : Nat) : Int) then
    let r3 := parse_iphdr b data_end r2.pos
    let r4 := parse_icmphdr b data_end r3.pos
    if r4.ret < 0 then XDP_PASS
    else if be16 b (r4.hdr.getD 0 + 6) % 2 = 1 then XDP_PASS
    else XDP_DROP
  else XDP_PASS

/-- A concrete frame given by a list of bytes (reads past the end give 0,
but every frame is used together with its length as `data_end`). -/
def frameBytes (l : List Nat) : Nat → Nat := fun i => l.getD i 0

/-- The VLAN-tag insertion of the transparency claim: four bytes
(outer EtherType `0x8100`, then the TCI) spliced in after the two MAC
addresses, the original EtherType moving to offsets 16..17. -/
def insertVlanTag (tci : Nat) (l : List Nat) : List Nat :=
  l.take 12 ++ [0x81, 0x00, tci / 256 % 256, tci % 256] ++ l.drop 12

lemma parse_ethhdr_nofit (b : Nat → Nat) (data_end pos : Nat)
    (h : data_end < pos + 14) : parse_ethhdr b data_end pos = ⟨-1, pos, none⟩ := by
  unfold parse_ethhdr
  rw [if_pos (by omega)]

lemma parse_ip6hdr_nofit (b : Nat → Nat) (data_end pos : Nat)
    (h : data_end < pos + 40) : parse_ip6hdr b data_end pos = ⟨-1, pos, none⟩ := by
  unfold parse_ip6hdr
  rw [if_pos (by omega)]

lemma parse_ip6hdr_fit (b : Nat → Nat) (data_end pos : Nat)
    (h : pos + 40 ≤ data_end) :
    parse_ip6hdr b data_end pos = ⟨(byteAt b (pos + 6) : Int), pos + 40, some pos⟩ := by
  unfold parse_ip6hdr
  rw [if_neg (by omega)]

lemma parse_icmp6hdr_nofit (b : Nat → Nat) (data_end pos : Nat)
    (h : data_end < pos + 8) : parse_icmp6hdr b data_end pos = ⟨-1, pos, none⟩ := by
  unfold parse_icmp6hdr
  rw [if_pos (by omega)]

lemma parse_icmp6hdr_fit (b : Nat → Nat) (data_end pos : Nat)
    (h : pos + 8 ≤ data_end) :
    parse_icmp6hdr b data_end pos = ⟨(byteAt b pos : Int), pos + 8, some pos⟩ := by
  unfold parse_icmp6hdr
  rw [if_neg (by omega)]

lemma parse_icmphdr_nofit (b : Nat → Nat) (data_end pos : Nat)
    (h : data_end < pos + 8) : parse_icmphdr b data_end pos = ⟨-1, pos, none⟩ := by
  unfold parse_icmphdr
  rw [if_pos (by omega)]

lemma parse_icmphdr_fit (b : Nat → Nat) (data_end pos : Nat)
    (h : pos + 8 ≤ data_end) :
    parse_icmphdr b data_end pos = ⟨(byteAt b pos : Int), pos + 8, some pos⟩ := by
  unfold parse_icmphdr
  rw [if_neg (by omega)]

lemma parse_iphdr_nofit (b : Nat → Nat) (data_end pos : Nat)
    (h : data_end < pos + 20) : parse_iphdr b data_end pos = ⟨-1, pos, none⟩ := by
  unfold parse_iphdr
  rw [if_pos (by omega)]

lemma parse_iphdr_fit (b : Nat → Nat) (data_end pos : Nat)
    (h20 : pos + 20 ≤ data_end) (hihl : pos + byteAt b pos % 16 * 4 ≤ data_end) :
    parse_iphdr b data_end pos =
      ⟨(byteAt b (pos + 9) : Int), pos + byteAt b pos % 16 * 4, some pos⟩ := by
  unfold parse_iphdr
  rw [if_neg (by omega), if_neg (by omega)]

lemma parse_ethhdr_pos_lower (b : Nat → Nat) (data_end pos : Nat) :
    pos ≤ (parse_ethhdr b data_end pos).pos := by
  unfold parse_ethhdr
  split_ifs <;> simp

lemma parse_ethhdr_pos_upper (b : Nat → Nat) (data_end pos : Nat)
    (h : pos ≤ data_end) : (parse_ethhdr b data_end pos).pos ≤ data_end := by
  unfold parse_ethhdr
  split_ifs <;> simp <;> omega

lemma parse_ethhdr_pos_of_ok (b : Nat → Nat) (data_end pos : Nat)
    (h : (parse_ethhdr b data_end pos).ret ≠ -1) :
    pos + 14 ≤ (parse_ethhdr b data_end pos).pos ∧ pos + 14 ≤ data_end := by
  by_cases hfit : data_end < pos + 14
  · rw [parse_ethhdr_nofit b data_end pos hfit] at h
    simp at h
  · unfold parse_ethhdr
    split_ifs <;> simp <;> omega

lemma parse_ip6hdr_pos_bounds (b : Nat → Nat) (data_end pos : Nat) :
    pos ≤ (parse_ip6hdr b data_end pos).pos ∧
      (pos ≤ data_end → (parse_ip6hdr b data_end pos).pos ≤ data_end) := by
  unfold parse_ip6hdr
  split_ifs <;> simp <;> omega

lemma parse_iphdr_pos_bounds (b : Nat → Nat) (data_end pos : Nat) :
    pos ≤ (parse_iphdr b data_end pos).pos ∧
      (pos ≤ data_end → (parse_iphdr b data_end pos).pos ≤ data_end) := by
  unfold parse_iphdr
  split_ifs <;> simp <;> omega

lemma parse_icmp6hdr_pos_bounds (b : Nat → Nat) (data_end pos : Nat) :
    pos ≤ (parse_icmp6hdr b data_end pos).pos ∧
      (pos ≤ data_end → (parse_icmp6hdr b data_end pos).pos ≤ data_end) := by
  unfold parse_icmp6hdr
  split_ifs <;> simp <;> omega

lemma parse_icmphdr_pos_bounds (b : Nat → Nat) (data_end pos : Nat) :
    pos ≤ (parse_icmphdr b data_end pos).pos ∧
      (pos ≤ data_end → (parse_icmphdr b data_end pos).pos ≤ data_end) := by
  unfold parse_icmphdr
  split_ifs <;> simp <;> omega

lemma byteAt_congr (b b' : Nat → Nat) (data_end i : Nat)
    (h : ∀ j, j < data_end → b j = b' j) (hi : i < data_end) :
    byteAt b i = byteAt b' i := by
  unfold byteAt
  rw [h i hi]

lemma be16_congr (b b' : Nat → Nat) (data_end i : Nat)
    (h : ∀ j, j < data_end → b j = b' j) (hi : i + 1 < data_end) :
    be16 b i = be16 b' i := by
  unfold be16
  rw [byteAt_congr b b' data_end i h (by omega),
    byteAt_congr b b' data_end (i + 1) h hi]

lemma parse_ethhdr_congr (b b' : Nat → Nat) (data_end pos : Nat)
    (h : ∀ j, j < data_end → b j = b' j) :
    parse_ethhdr b data_end pos = parse_ethhdr b' data_end pos := by
  unfold parse_ethhdr
  by_cases h1 : pos + 14 > data_end
  · rw [if_pos h1, if_pos h1]
  · rw [if_neg h1, if_neg h1,
      be16_congr b b' data_end (pos + 12) h (by omega)]
    by_cases h2 : proto_is_vlan (be16 b' (pos + 12))
    · rw [if_pos h2, if_pos h2]
      by_cases h3 : pos + 18 > data_end
      · rw [if_pos h3, if_pos h3]
      · rw [if_neg h3, if_neg h3,
          be16_congr b b' data_end (pos + 16) h (by omega)]
        by_cases h4 : proto_is_vlan (be16 b' (pos + 16))
        · rw [if_pos h4, if_pos h4]
          by_cases h5 : pos + 22 > data_end
          · rw [if_pos h5, if_pos h5]
          · rw [if_neg h5, if_neg h5,
              be16_congr b b' data_end (pos + 20) h (by omega)]
        · rw [if_neg h4, if_neg h4]
    · rw [if_neg h2, if_neg h2]

lemma parse_ip6hdr_congr (b b' : Nat → Nat) (data_end pos : Nat)
    (h : ∀ j, j < data_end → b j = b' j) :
    parse_ip6hdr b data_end pos = parse_ip6hdr b' data_end pos := by
  unfold parse_ip6hdr
  by_cases h1 : pos + 40 > data_end
  · rw [if_pos h1, if_pos h1]
  · rw [if_neg h1, if_neg h1,
      byteAt_congr b b' data_end (pos + 6) h (by omega)]

lemma parse_iphdr_congr (b b' : Nat → Nat) (data_end pos : Nat)
    (h : ∀ j, j < data_end → b j = b' j) :
    parse_iphdr b data_end pos = parse_iphdr b' data_end pos := by
  unfold parse_iphdr
  by_cases h1 : pos + 20 > data_end
  · rw [if_pos h1, if_pos h1]
  · rw [if_neg h1, if_neg h1, byteAt_congr b b' data_end pos h (by omega),
      byteAt_congr b b' data_end (pos + 9) h (by omega)]

lemma parse_icmp6hdr_congr (b b' : Nat → Nat) (data_end pos : Nat)
    (h : ∀ j, j < data_end → b j = b' j) :
    parse_icmp6hdr b data_end pos = parse_icmp6hdr b' data_end pos := by
  unfold parse_icmp6hdr
  by_cases h1 : pos + 8 > data_end
  · rw [if_pos h1, if_pos h1]
  · rw [if_neg h1, if_neg h1, byteAt_congr b b' data_end pos h (by omega)]

lemma parse_icmphdr_congr (b b' : Nat → Nat) (data_end pos : Nat)
    (h : ∀ j, j < data_end → b j = b' j) :
    parse_icmphdr b data_end pos = parse_icmphdr b' data_end pos := by
  unfold parse_icmphdr
  by_cases h1 : pos + 8 > data_end
  · rw [if_pos h1, if_pos h1]
  · rw [if_neg h1, if_neg h1, byteAt_congr b b' data_end pos h (by omega)]

lemma icmp6_branch_congr (b b' : Nat → Nat) (data_end p : Nat)
    (h : ∀ j, j < data_end → b j = b' j) :
    (if (parse_icmp6hdr b' data_end p).ret < 0 then XDP_PASS
     else if be16 b ((parse_icmp6hdr b' data_end p).hdr.getD 0 + 6) % 2 = 1 then XDP_PASS
     else XDP_DROP)
    = (if (parse_icmp6hdr b' data_end p).ret < 0 then XDP_PASS
     else if be16 b' ((parse_icmp6hdr b' data_end p).hdr.getD 0 + 6) % 2 = 1 then XDP_PASS
     else XDP_DROP) := by
  by_cases hfit : p + 8 ≤ data_end
  · rw [parse_icmp6hdr_fit b' data_end p hfit]
    simp only [Option.getD_some]
    simp only [be16_congr b b' data_end (p + 6) h (by omega)]
  · rw [parse_icmp6hdr_nofit b' data_end p (by omega)]
    simp

lemma icmp_branch_congr (b b' : Nat → Nat) (data_end p : Nat)
    (h : ∀ j, j < data_end → b j = b' j) :
    (if (parse_icmphdr b' data_end p).ret < 0 then XDP_PASS
     else if be16 b ((parse_icmphdr b' data_end p).hdr.getD 0 + 6) % 2 = 1 then XDP_PASS
     else XDP_DROP)
    = (if (parse_icmphdr b' data_end p).ret < 0 then XDP_PASS
     else if be16 b' ((parse_icmphdr b' data_end p).hdr.getD 0 + 6) % 2 = 1 then XDP_PASS
     else XDP_DROP) := by
  by_cases hfit : p + 8 ≤ data_end
  · rw [parse_icmphdr_fit b' data_end p hfit]
    simp only [Option.getD_some]
    simp only [be16_congr b b' data_end (p + 6) h (by omega)]
  · rw [parse_icmphdr_nofit b' data_end p (by omega)]
    simp

lemma xdp_parser_func_congr (b b' : Nat → Nat) (data_end : Nat)
    (h : ∀ j, j < data_end → b j = b' j) :
    xdp_parser_func b data_end = xdp_parser_func b' data_end := by
  simp only [xdp_parser_func]
  rw [parse_ethhdr_congr b b' data_end 0 h,
    parse_ip6hdr_congr b b' data_end (parse_ethhdr b' data_end 0).pos h,
    parse_iphdr_congr b b' data_end (parse_ethhdr b' data_end 0).pos h,
    parse_icmp6hdr_congr b b' data_end
      (parse_ip6hdr b' data_end (parse_ethhdr b' data_end 0).pos).pos h,
    parse_icmphdr_congr b b' data_end
      (parse_iphdr b' data_end (parse_ethhdr b' data_end 0).pos).pos h,
    icmp6_branch_congr b b' data_end
      (parse_ip6hdr b' data_end (parse_ethhdr b' data_end 0).pos).pos h,
    icmp_branch_congr b b' data_end
      (parse_iphdr b' data_end (parse_ethhdr b' data_end 0).pos).pos h]

lemma xdp_parser_func_action (b : Nat → Nat) (data_end : Nat) :
    xdp_parser_func b data_end = XDP_PASS ∨ xdp_parser_func b data_end = XDP_DROP := by
  simp only [xdp_parser_func]
  split_ifs <;> simp

lemma parse_ethhdr_ret_neg_iff (b : Nat → Nat) (data_end pos : Nat) :
    (parse_ethhdr b data_end pos).ret = -1 ↔ data_end < pos + 14 := by
  unfold parse_ethhdr
  split_ifs <;> simp <;> omega

lemma parse_ip6hdr_ret_neg_iff (b : Nat → Nat) (data_end pos : Nat) :
    (parse_ip6hdr b data_end pos).ret = -1 ↔ data_end < pos + 40 := by
  unfold parse_ip6hdr
  split_ifs <;> simp <;> omega

lemma parse_iphdr_ret_neg_iff (b : Nat → Nat) (data_end pos : Nat) :
    (parse_iphdr b data_end pos).ret = -1 ↔
      data_end < pos + 20 ∨ data_end < pos + byteAt b pos % 16 * 4 := by
  unfold parse_iphdr
  split_ifs <;> simp <;> omega

lemma parse_icmp6hdr_ret_neg_iff (b : Nat → Nat) (data_end pos : Nat) :
    (parse_icmp6hdr b data_end pos).ret = -1 ↔ data_end < pos + 8 := by
  unfold parse_icmp6hdr
  split_ifs <;> simp <;> omega

lemma parse_icmphdr_ret_neg_iff (b : Nat → Nat) (data_end pos : Nat) :
    (parse_icmphdr b data_end pos).ret = -1 ↔ data_end < pos + 8 := by
  unfold parse_icmphdr
  split_ifs <;> simp <;> omega

lemma parse_iphdr_fail (b : Nat → Nat) (data_end pos : Nat)
    (h : data_end < pos + 20 ∨ data_end < pos + byteAt b pos % 16 * 4) :
    parse_iphdr b data_end pos = ⟨-1, pos, none⟩ := by
  unfold parse_iphdr
  by_cases h20 : pos + 20 > data_end
  · rw [if_pos h20]
  · rcases h with h | h
    · exact absurd h (by omega)
    · rw [if_neg h20, if_pos (by omega)]

lemma parse_ethhdr_untagged (b : Nat → Nat) (data_end : Nat)
    (h14 : 14 ≤ data_end) (h : proto_is_vlan (be16 b 12) = false) :
    parse_ethhdr b data_end 0 = ⟨(be16 b 12 : Int), 14, some 0⟩ := by
  unfold parse_ethhdr
  rw [if_neg (by omega)]
  simp [h]

/-- Untagged Ethernet/IPv4/ICMPv4 echo-request frame, IHL 5, protocol 1,
fragment field `0x4000` (DF), echo id 1, sequence 1 (odd); 42 bytes.
This is scenario S3 of the spec. -/
def fS3 : List Nat :=
  [0, 0, 0, 0, 0, 0, 0, 0, 0, 0, 0, 0, 0x08, 0x00,
   0x45, 0x00, 0x00, 0x1c, 0x00, 0x00, 0x40, 0x00, 0x40, 0x01, 0x00, 0x00,
   10, 0, 0, 1, 10, 0, 0, 2,
   0x08, 0x00, 0xf7, 0xfd, 0x00, 0x01, 0x00, 0x01]

/-- Untagged Ethernet/IPv6/ICMPv6 echo-request frame, next_header 58,
type 128, echo id 1, sequence 3 (odd); 62 bytes.  Scenario S1 of the spec. -/
def fS1 : List Nat :=
  [0, 0, 0, 0, 0, 0, 0, 0, 0, 0, 0, 0, 0x86, 0xdd,
   0x60, 0, 0, 0, 0x00, 0x08, 58, 64,
   0, 0, 0, 0, 0, 0, 0, 0, 0, 0, 0, 0, 0, 0, 0, 1,
   0, 0, 0, 0, 0, 0, 0, 0, 0, 0, 0, 0, 0, 0, 0, 2,
   128, 0, 0x00, 0x01, 0x00, 0x01, 0x00, 0x03]

/-- Untagged Ethernet/IPv6/ICMPv6 echo-request frame with even sequence 4
and checksum `0x0001`; 62 bytes.  Scenario S2 of the spec; used as the
frame whose single-VLAN wrap is scenario S5. -/
def fC3 : List Nat :=
  [0, 0, 0, 0, 0, 0, 0, 0, 0, 0, 0, 0, 0x86, 0xdd,
   0x60, 0, 0, 0, 0x00, 0x08, 58, 64,
   0, 0, 0, 0, 0, 0, 0, 0, 0, 0, 0, 0, 0, 0, 0, 1,
   0, 0, 0, 0, 0, 0, 0, 0, 0, 0, 0, 0, 0, 0, 0, 2,
   128, 0, 0x00, 0x01, 0x00, 0x01, 0x00, 0x04]

/-- Untagged Ethernet/IPv6 frame whose `next_header` is 6 (TCP, not
ICMPv6 = 58), followed by 8 payload bytes whose bytes 6..7 are 0 (even);
62 bytes. -/
def fC5 : List Nat :=
  [0, 0, 0, 0, 0, 0, 0, 0, 0, 0, 0, 0, 0x86, 0xdd,
   0x60, 0, 0, 0, 0x00, 0x08, 6, 64,
   0, 0, 0, 0, 0, 0, 0, 0, 0, 0, 0, 0, 0, 0, 0, 1,
   0, 0, 0, 0, 0, 0, 0, 0, 0, 0, 0, 0, 0, 0, 0, 2,
   0, 0, 0, 0, 0, 0, 0, 0]

/-- Untagged Ethernet/IPv6 frame cut off right after the 40-byte IPv6
header (54 bytes): the ICMPv6 header does not fit. -/
def fV6hdrOnly : List Nat :=
  [0, 0, 0, 0, 0, 0, 0, 0, 0, 0, 0, 0, 0x86, 0xdd,
   0x60, 0, 0, 0, 0x00, 0x00, 58, 64,
   0, 0, 0, 0, 0, 0, 0, 0, 0, 0, 0, 0, 0, 0, 0, 1,
   0, 0, 0, 0, 0, 0, 0, 0, 0, 0, 0, 0, 0, 0, 0, 2]

/-- A bare 20-byte buffer whose first byte `0x40` has version nibble 4 and
IHL nibble 0, with `protocol` byte 7; presented directly to the IPv4
parser. -/
def fC6 : List Nat :=
  [0x40, 0, 0, 0, 0, 0, 0, 0, 0, 7, 0, 0, 0, 0, 0, 0, 0, 0, 0, 0]

/-- A 14-byte Ethernet frame with EtherType `0x1234`, neither IPv4 nor
IPv6 nor a VLAN tag. -/
def fOtherEtherType : List Nat :=
  [0, 0, 0, 0, 0, 0, 0, 0, 0, 0, 0, 0, 0x12, 0x34]

/-- The IHL nibble of an untagged frame's IPv4 header (low nibble of the
byte at offset 14). -/
def ipv4_ihl (b : Nat → Nat) : Nat := byteAt b 14 % 16

/-- Well-formed untagged Ethernet/IPv4/ICMPv4-echo frame: EtherType
`0x0800`, IP version 4, IHL at least 5, protocol 1 (ICMP), ICMP type 8
(echo request) with code 0 at offset `14 + ihl*4`, and the whole
Ethernet + IP + 8-byte ICMP header inside the frame. -/
def wellFormedV4 (b : Nat → Nat) (data_end : Nat) : Prop :=
  be16 b 12 = ETH_P_IP ∧ byteAt b 14 / 16 = 4 ∧ 5 ≤ ipv4_ihl b ∧
    byteAt b 23 = 1 ∧ byteAt b (14 + ipv4_ihl b * 4) = 8 ∧
    byteAt b (14 + ipv4_ihl b * 4 + 1) = 0 ∧ 14 + ipv4_ihl b * 4 + 8 ≤ data_end

/-- The ICMPv4 echo sequence number of a well-formed untagged IPv4 echo
frame, read in network byte order at offsets 6..7 of the ICMP header. -/
def icmpSeqV4 (b : Nat → Nat) : Nat := be16 b (14 + ipv4_ihl b * 4 + 6)

/-- Well-formed untagged Ethernet/IPv6/ICMPv6-echo frame: EtherType
`0x86DD`, IP version 6, `next_header` 58 (ICMPv6), ICMPv6 type 128 (echo
request) with code 0 at offset 54, and at least 62 bytes in the frame. -/
def wellFormedV6 (b : Nat → Nat) (data_end : Nat) : Prop :=
  be16 b 12 = ETH_P_IPV6 ∧ byteAt b 14 / 16 = 6 ∧ byteAt b 20 = 58 ∧
    byteAt b 54 = 128 ∧ byteAt b 55 = 0 ∧ 62 ≤ data_end

/-- The ICMPv6 echo sequence number of a well-formed untagged IPv6 echo
frame, read in network byte order at offsets 60..61. -/
def icmpSeqV6 (b : Nat → Nat) : Nat := be16 b 60

/-- C1: for every frame `[0, data_end)`, the classifier (a total function
here, so it terminates) returns an action — always `XDP_PASS` or
`XDP_DROP` — and no byte at or beyond `data_end` is ever read: the result
is unchanged under arbitrary modification of the bytes at offsets
`≥ data_end`, since every dereference is behind a successful bounds
check. -/
theorem c1_classifier_total_safe (b b' : Nat → Nat) (data_end : Nat)
    (h : ∀ i, i < data_end → b i = b' i) :
    (xdp_parser_func b data_end = XDP_PASS ∨ xdp_parser_func b data_end = XDP_DROP) ∧
      xdp_parser_func b data_end = xdp_parser_func b' data_end :=
  ⟨xdp_parser_func_action b data_end, xdp_parser_func_congr b b' data_end h⟩

/-- Witness for C1: the 42-byte IPv4 echo frame, with every byte past
offset 41 replaced by 99, classifies identically. -/
theorem c1_classifier_total_safe_witness :
    (xdp_parser_func (frameBytes fS3) 42 = XDP_PASS ∨
      xdp_parser_func (frameBytes fS3) 42 = XDP_DROP) ∧
      xdp_parser_func (frameBytes fS3) 42 =
        xdp_parser_func (fun j => if j < 42 then frameBytes fS3 j else 99) 42 :=
  c1_classifier_total_safe (frameBytes fS3)
    (fun j => if j < 42 then frameBytes fS3 j else 99) 42 (by decide)

/-- C7: after every parser call, successful or not, the cursor satisfies
`data ≤ pos ≤ data_end` (with `data = 0` in offsets, the lower bound is
monotonicity over the entry cursor): assuming the entry cursor is in
bounds, each of the five parsers leaves the cursor between its entry
value and `data_end`. -/
theorem c7_cursor_bounds (b : Nat → Nat) (data_end pos : Nat) (h : pos ≤ data_end) :
    (pos ≤ (parse_ethhdr b data_end pos).pos ∧ (parse_ethhdr b data_end pos).pos ≤ data_end) ∧
    (pos ≤ (parse_ip6hdr b data_end pos).pos ∧ (parse_ip6hdr b data_end pos).pos ≤ data_end) ∧
    (pos ≤ (parse_iphdr b data_end pos).pos ∧ (parse_iphdr b data_end pos).pos ≤ data_end) ∧
    (pos ≤ (parse_icmp6hdr b data_end pos).pos ∧
      (parse_icmp6hdr b data_end pos).pos ≤ data_end) ∧
    (pos ≤ (parse_icmphdr b data_end pos).pos ∧
      (parse_icmphdr b data_end pos).pos ≤ data_end) :=
  ⟨⟨parse_ethhdr_pos_lower b data_end pos, parse_ethhdr_pos_upper b data_end pos h⟩,
    ⟨(parse_ip6hdr_pos_bounds b data_end pos).1, (parse_ip6hdr_pos_bounds b data_end pos).2 h⟩,
    ⟨(parse_iphdr_pos_bounds b data_end pos).1, (parse_iphdr_pos_bounds b data_end pos).2 h⟩,
    ⟨(parse_icmp6hdr_pos_bounds b data_end pos).1,
      (parse_icmp6hdr_pos_bounds b data_end pos).2 h⟩,
    ⟨(parse_icmphdr_pos_bounds b data_end pos).1,
      (parse_icmphdr_pos_bounds b data_end pos).2 h⟩⟩

/-- Witness for C7 on the concrete IPv4 echo frame with the cursor at the
start of the IP header. -/
theorem c7_cursor_bounds_witness :
    (14 ≤ (parse_ethhdr (frameBytes fS3) 42 14).pos ∧
      (parse_ethhdr (frameBytes fS3) 42 14).pos ≤ 42) ∧
    (14 ≤ (parse_ip6hdr (frameBytes fS3) 42 14).pos ∧
      (parse_ip6hdr (frameBytes fS3) 42 14).pos ≤ 42) ∧
    (14 ≤ (parse_iphdr (frameBytes fS3) 42 14).pos ∧
      (parse_iphdr (frameBytes fS3) 42 14).pos ≤ 42) ∧
    (14 ≤ (parse_icmp6hdr (frameBytes fS3) 42 14).pos ∧
      (parse_icmp6hdr (frameBytes fS3) 42 14).pos ≤ 42) ∧
    (14 ≤ (parse_icmphdr (frameBytes fS3) 42 14).pos ∧
      (parse_icmphdr (frameBytes fS3) 42 14).pos ≤ 42) :=
  c7_cursor_bounds (frameBytes fS3) 42 14 (by omega)

/-- C8: a frame whose Ethernet header does not fit (L2 failure, sentinel
`-1`), and a frame whose innermost EtherType is neither IPv4 `0x0800` nor
IPv6 `0x86DD`, are both classified `XDP_PASS`. -/
theorem c8_default_pass (b : Nat → Nat) (data_end : Nat) :
    (data_end < 14 → xdp_parser_func b data_end = XDP_PASS) ∧
    ((parse_ethhdr b data_end 0).ret ≠ ((ETH_P_IP : Nat) : Int) →
      (parse_ethhdr b data_end 0).ret ≠ ((ETH_P_IPV6 : Nat) : Int) →
      xdp_parser_func b data_end = XDP_PASS) := by
  constructor
  · intro hlt
    have hret : (parse_ethhdr b data_end 0).ret = -1 :=
      (parse_ethhdr_ret_neg_iff b data_end 0).mpr (by omega)
    simp only [xdp_parser_func]
    rw [if_neg (by rw [hret]; decide), if_neg (by rw [hret]; decide)]
  · intro h4 h6
    simp only [xdp_parser_func]
    rw [if_neg h6, if_neg h4]

/-- Witness for C8: the empty frame (L2 failure) and a 14-byte frame with
EtherType `0x1234` both yield `XDP_PASS`. -/
theorem c8_default_pass_witness :
    xdp_parser_func (fun _ => 0) 0 = XDP_PASS ∧
      xdp_parser_func (frameBytes fOtherEtherType) 14 = XDP_PASS :=
  ⟨(c8_default_pass (fun _ => 0) 0).1 (by omega),
    (c8_default_pass (frameBytes fOtherEtherType) 14).2 (by decide) (by decide)⟩

/-- C10: every parser is atomic on failure — whenever a parser returns the
sentinel `-1`, the cursor is exactly its entry value and the header
out-parameter was not written (`none`). -/
theorem c10_failure_atomic (b : Nat → Nat) (data_end pos : Nat) :
    ((parse_ethhdr b data_end pos).ret = -1 →
      parse_ethhdr b data_end pos = ⟨-1, pos, none⟩) ∧
    ((parse_ip6hdr b data_end pos).ret = -1 →
      parse_ip6hdr b data_end pos = ⟨-1, pos, none⟩) ∧
    ((parse_iphdr b data_end pos).ret = -1 →
      parse_iphdr b data_end pos = ⟨-1, pos, none⟩) ∧
    ((parse_icmp6hdr b data_end pos).ret = -1 →
      parse_icmp6hdr b data_end pos = ⟨-1, pos, none⟩) ∧
    ((parse_icmphdr b data_end pos).ret = -1 →
      parse_icmphdr b data_end pos = ⟨-1, pos, none⟩) :=
  ⟨fun h => parse_ethhdr_nofit b data_end pos ((parse_ethhdr_ret_neg_iff b data_end pos).mp h),
    fun h => parse_ip6hdr_nofit b data_end pos ((parse_ip6hdr_ret_neg_iff b data_end pos).mp h),
    fun h => parse_iphdr_fail b data_end pos ((parse_iphdr_ret_neg_iff b data_end pos).mp h),
    fun h =>
      parse_icmp6hdr_nofit b data_end pos ((parse_icmp6hdr_ret_neg_iff b data_end pos).mp h),
    fun h =>
      parse_icmphdr_nofit b data_end pos ((parse_icmphdr_ret_neg_iff b data_end pos).mp h)⟩

/-- Witness for C10: all five parsers fail on the empty frame and leave
the cursor at its entry value 3 with no header written. -/
theorem c10_failure_atomic_witness :
    parse_ethhdr (fun _ => 0) 0 3 = ⟨-1, 3, none⟩ ∧
      parse_ip6hdr (fun _ => 0) 0 3 = ⟨-1, 3, none⟩ ∧
      parse_iphdr (fun _ => 0) 0 3 = ⟨-1, 3, none⟩ ∧
      parse_icmp6hdr (fun _ => 0) 0 3 = ⟨-1, 3, none⟩ ∧
      parse_icmphdr (fun _ => 0) 0 3 = ⟨-1, 3, none⟩ :=
  ⟨(c10_failure_atomic (fun _ => 0) 0 3).1 (by decide),
    (c10_failure_atomic (fun _ => 0) 0 3).2.1 (by decide),
    (c10_failure_atomic (fun _ => 0) 0 3).2.2.1 (by decide),
    (c10_failure_atomic (fun _ => 0) 0 3).2.2.2.1 (by decide),
    (c10_failure_atomic (fun _ => 0) 0 3).2.2.2.2 (by decide)⟩

/-- C3, evaluated at the failing input: the untagged IPv6 echo frame with
even sequence 4 classifies `XDP_DROP`, but after inserting a single
802.1Q tag (TCI 0) the classifier returns `XDP_PASS`: `parse_ethhdr`
leaves the cursor at offset 14 — at the VLAN tag it consumed — instead of
18, so the IPv6 header is parsed 4 bytes early and the parity field is
read from the ICMPv6 checksum (odd here) instead of the sequence. -/
theorem c3_vlan_cursor_bug :
    xdp_parser_func (frameBytes fC3) fC3.length = XDP_DROP ∧
      xdp_parser_func (frameBytes (insertVlanTag 0 fC3))
        (insertVlanTag 0 fC3).length = XDP_PASS ∧
      (parse_ethhdr (frameBytes (insertVlanTag 0 fC3))
        (insertVlanTag 0 fC3).length 0).pos = 14 := by
  decide

/-- C4 counterexample: the 42-byte IPv4 echo frame classifies `XDP_PASS`,
but its 22-byte prefix (same bytes, `data_end = 22`; by C1 no byte at or
past `data_end` is read, so this is the truncated frame) classifies
`XDP_DROP`: the failed IPv4 parse is ignored, `parse_icmphdr` succeeds at
offset 14, and the parity field is read from bytes 20..21 — the IPv4
fragment field `0x4000`, which is even. -/
theorem c4_truncation_cex :
    22 ≤ fS3.length ∧ xdp_parser_func (frameBytes fS3) fS3.length = XDP_PASS ∧
      xdp_parser_func (frameBytes fS3) 22 = XDP_DROP := by
  decide

/-- C4 amended: truncating to fewer than 22 bytes always yields
`XDP_PASS` (no 8-byte ICMP header can fit past the 14-byte Ethernet
header); at 22 bytes or more a truncated frame can yield `XDP_DROP`,
because a failed L3 parse leaves the cursor at the start of the IP header
and the parity field is then read from inside it. -/
theorem c4_truncation_amended (b : Nat → Nat) (data_end : Nat) (h : data_end < 22) :
    xdp_parser_func b data_end = XDP_PASS := by
  simp only [xdp_parser_func]
  by_cases h6 : (parse_ethhdr b data_end 0).ret = ((ETH_P_IPV6 : Nat) : Int)
  · rw [if_pos h6]
    have h14 := parse_ethhdr_pos_of_ok b data_end 0 (by rw [h6]; decide)
    have hp3 := (parse_ip6hdr_pos_bounds b data_end (parse_ethhdr b data_end 0).pos).1
    rw [parse_icmp6hdr_nofit b data_end _ (by omega)]
    simp
  · rw [if_neg h6]
    by_cases h4 : (parse_ethhdr b data_end 0).ret = ((ETH_P_IP : Nat) : Int)
    · rw [if_pos h4]
      have h14 := parse_ethhdr_pos_of_ok b data_end 0 (by rw [h4]; decide)
      have hp3 := (parse_iphdr_pos_bounds b data_end (parse_ethhdr b data_end 0).pos).1
      rw [parse_icmphdr_nofit b data_end _ (by omega)]
      simp
    · rw [if_neg h4]

/-- Witness for the amended C4 at a 21-byte truncation. -/
theorem c4_truncation_amended_witness :
    xdp_parser_func (frameBytes fS3) 21 = XDP_PASS :=
  c4_truncation_amended (frameBytes fS3) 21 (by omega)

/-- C5 counterexample: a frame whose innermost EtherType is IPv6, whose
40-byte IPv6 header fits, and whose `next_header` is 6 (TCP, not
ICMPv6 = 58) is classified `XDP_DROP`, not `XDP_PASS`: the classifier
ignores the value returned by `parse_ip6hdr` and applies the parity rule
to bytes 60..61 of the frame. -/
theorem c5_nexthdr_ignored_cex :
    (parse_ethhdr (frameBytes fC5) 62 0).ret = ((ETH_P_IPV6 : Nat) : Int) ∧
      byteAt (frameBytes fC5) 20 = 6 ∧
      xdp_parser_func (frameBytes fC5) 62 = XDP_DROP := by
  decide

/-- C5 amended: the classifier never inspects the `next_header` value
returned by `parse_ip6hdr`; on the IPv6 branch it falls through to
`XDP_PASS` exactly when the 8-byte header after the 40-byte advance does
not fit, and otherwise applies the parity rule regardless of
`next_header`.  This theorem proves the fall-through half. -/
theorem c5_ipv6_fallthrough (b : Nat → Nat) (data_end : Nat)
    (h6 : (parse_ethhdr b data_end 0).ret = ((ETH_P_IPV6 : Nat) : Int))
    (hnofit : data_end <
      (parse_ip6hdr b data_end (parse_ethhdr b data_end 0).pos).pos + 8) :
    xdp_parser_func b data_end = XDP_PASS := by
  simp only [xdp_parser_func]
  rw [if_pos h6, parse_icmp6hdr_nofit b data_end _ hnofit]
  simp

/-- Witness for the amended C5: an IPv6 frame cut right after its 40-byte
header passes. -/
theorem c5_ipv6_fallthrough_witness :
    xdp_parser_func (frameBytes fV6hdrOnly) 54 = XDP_PASS :=
  c5_ipv6_fallthrough (frameBytes fV6hdrOnly) 54 (by decide) (by decide)

/-- C6 counterexample: a 20-byte buffer whose IHL nibble is 0 (below 5)
with its fixed 20-byte prefix in bounds is accepted by `parse_iphdr`: the
second bounds check passes (since `ihl*4 ≤ 20`), the parser returns the
protocol byte 7 — not `-1` — and advances the cursor by 0 bytes. -/
theorem c6_ihl_check_cex :
    0 + 20 ≤ 20 ∧ byteAt (frameBytes fC6) 0 % 16 < 5 ∧
      (parse_iphdr (frameBytes fC6) 20 0).ret ≠ -1 ∧
      parse_iphdr (frameBytes fC6) 20 0 = ⟨7, 0, some 0⟩ := by
  decide

/-- C6 amended: if the fixed 20-byte prefix fits and the IHL nibble is
below 5, the second bounds check passes as well (the computed header
length `ihl*4` is at most the 20 bytes already checked), so the parser
succeeds, returning the protocol field and advancing the cursor by
`ihl*4` (possibly 0) bytes; bounds checking alone rejects no IHL value
below 5. -/
theorem c6_small_ihl_accepted (b : Nat → Nat) (data_end pos : Nat)
    (h20 : pos + 20 ≤ data_end) (hihl : byteAt b pos % 16 < 5) :
    parse_iphdr b data_end pos =
      ⟨(byteAt b (pos + 9) : Int), pos + byteAt b pos % 16 * 4, some pos⟩ :=
  parse_iphdr_fit b data_end pos h20 (by omega)

/-- Witness for the amended C6 on the concrete IHL-0 buffer. -/
theorem c6_small_ihl_accepted_witness :
    parse_iphdr (frameBytes fC6) 20 0 =
      ⟨(byteAt (frameBytes fC6) (0 + 9) : Int),
        0 + byteAt (frameBytes fC6) 0 % 16 * 4, some 0⟩ :=
  c6_small_ihl_accepted (frameBytes fC6) 20 0 (by omega) (by decide)

/-- C9: the classifier never tests the IP protocol / next-header value or
the ICMP type: whenever the innermost EtherType is IPv6 (resp. IPv4) and
an 8-byte header fits at the cursor position left by the L3 parse, the
action is decided solely by the parity of the 16-bit big-endian field at
bytes 6..7 of that region — no hypothesis about the payload being ICMP is
needed. -/
theorem c9_parity_only (b : Nat → Nat) (data_end : Nat) :
    ((parse_ethhdr b data_end 0).ret = ((ETH_P_IPV6 : Nat) : Int) →
      (parse_ip6hdr b data_end (parse_ethhdr b data_end 0).pos).pos + 8 ≤ data_end →
      xdp_parser_func b data_end =
        (if be16 b ((parse_ip6hdr b data_end (parse_ethhdr b data_end 0).pos).pos + 6) % 2 = 1
          then XDP_PASS else XDP_DROP)) ∧
    ((parse_ethhdr b data_end 0).ret = ((ETH_P_IP : Nat) : Int) →
      (parse_iphdr b data_end (parse_ethhdr b data_end 0).pos).pos + 8 ≤ data_end →
      xdp_parser_func b data_end =
        (if be16 b ((parse_iphdr b data_end (parse_ethhdr b data_end 0).pos).pos + 6) % 2 = 1
          then XDP_PASS else XDP_DROP)) := by
  constructor
  · intro h6 hfit
    simp only [xdp_parser_func]
    rw [if_pos h6, parse_icmp6hdr_fit b data_end _ hfit]
    simp only [Option.getD_some]
    have hnn : ¬ ((byteAt b
        ((parse_ip6hdr b data_end (parse_ethhdr b data_end 0).pos).pos) : Int) < 0) := by
      omega
    rw [if_neg hnn]
  · intro h4 hfit
    simp only [xdp_parser_func]
    rw [if_neg (by rw [h4]; decide), if_pos h4, parse_icmphdr_fit b data_end _ hfit]
    simp only [Option.getD_some]
    have hnn : ¬ ((byteAt b
        ((parse_iphdr b data_end (parse_ethhdr b data_end 0).pos).pos) : Int) < 0) := by
      omega
    rw [if_neg hnn]

/-- Witness for C9: on the non-ICMP IPv6 frame and on the IPv4 echo
frame the action equals the parity test of the respective field. -/
theorem c9_parity_only_witness :
    xdp_parser_func (frameBytes fC5) 62 =
      (if be16 (frameBytes fC5)
          ((parse_ip6hdr (frameBytes fC5) 62
            (parse_ethhdr (frameBytes fC5) 62 0).pos).pos + 6) % 2 = 1
        then XDP_PASS else XDP_DROP) ∧
    xdp_parser_func (frameBytes fS3) 42 =
      (if be16 (frameBytes fS3)
          ((parse_iphdr (frameBytes fS3) 42
            (parse_ethhdr (frameBytes fS3) 42 0).pos).pos + 6) % 2 = 1
        then XDP_PASS else XDP_DROP) :=
  ⟨(c9_parity_only (frameBytes fC5) 62).1 (by decide) (by decide),
    (c9_parity_only (frameBytes fS3) 42).2 (by decide) (by decide)⟩

/-- C2: on every well-formed untagged Ethernet/IPv4/ICMPv4-echo frame and
every well-formed untagged Ethernet/IPv6/ICMPv6-echo frame carrying echo
sequence `S` (read big-endian from the wire), the classifier returns
`XDP_DROP` if `S` is even and `XDP_PASS` if `S` is odd — the same parity
rule for v4 and v6. -/
theorem c2_parity_rule (b : Nat → Nat) (data_end : Nat) :
    (wellFormedV4 b data_end →
      xdp_parser_func b data_end =
        (if icmpSeqV4 b % 2 = 0 then XDP_DROP else XDP_PASS)) ∧
    (wellFormedV6 b data_end →
      xdp_parser_func b data_end =
        (if icmpSeqV6 b % 2 = 0 then XDP_DROP else XDP_PASS)) := by
  constructor
  · intro hwf
    obtain ⟨hety, hver, hihl, hproto, htype, hcode, hlen⟩ := hwf
    simp only [ipv4_ihl] at hihl htype hcode hlen
    have hvl : proto_is_vlan (be16 b 12) = false := by rw [hety]; decide
    have heth := parse_ethhdr_untagged b data_end (by omega) hvl
    have hip : parse_iphdr b data_end 14 =
        ⟨(byteAt b (14 + 9) : Int), 14 + byteAt b 14 % 16 * 4, some 14⟩ :=
      parse_iphdr_fit b data_end 14 (by omega) (by omega)
    have hicmp : parse_icmphdr b data_end (14 + byteAt b 14 % 16 * 4) =
        ⟨(byteAt b (14 + byteAt b 14 % 16 * 4) : Int),
          14 + byteAt b 14 % 16 * 4 + 8, some (14 + byteAt b 14 % 16 * 4)⟩ :=
      parse_icmphdr_fit b data_end (14 + byteAt b 14 % 16 * 4) (by omega)
    simp only [xdp_parser_func, heth, hety, icmpSeqV4, ipv4_ihl]
    rw [if_neg (by decide), if_pos trivial]
    simp only [hip, hicmp, Option.getD_some, htype]
    norm_num
    rcases Nat.mod_two_eq_zero_or_one (be16 b (14 + byteAt b 14 % 16 * 4 + 6)) with hm | hm <;>
      simp [hm]
  · intro hwf
    obtain ⟨hety, hver, hnh, htype, hcode, hlen⟩ := hwf
    have hvl : proto_is_vlan (be16 b 12) = false := by rw [hety]; decide
    have heth := parse_ethhdr_untagged b data_end (by omega) hvl
    have hip6 : parse_ip6hdr b data_end 14 = ⟨(byteAt b 20 : Int), 54, some 14⟩ := by
      rw [parse_ip6hdr_fit b data_end 14 (by omega)]
    have hicmp6 : parse_icmp6hdr b data_end 54 = ⟨(byteAt b 54 : Int), 62, some 54⟩ := by
      rw [parse_icmp6hdr_fit b data_end 54 (by omega)]
    simp only [xdp_parser_func, heth, hety, icmpSeqV6]
    rw [if_pos trivial]
    simp only [hip6, hicmp6, Option.getD_some, htype]
    norm_num
    rcases Nat.mod_two_eq_zero_or_one (be16 b 60) with hm | hm <;> simp [hm]

/-- Witness for C2: scenario S3 (IPv4 echo, sequence 1) and scenario S1
(IPv6 echo, sequence 3) both satisfy the respective well-formedness and
the parity-rule equations. -/
theorem c2_parity_rule_witness :
    xdp_parser_func (frameBytes fS3) 42 =
      (if icmpSeqV4 (frameBytes fS3) % 2 = 0 then XDP_DROP else XDP_PASS) ∧
    xdp_parser_func (frameBytes fS1) 62 =
      (if icmpSeqV6 (frameBytes fS1) % 2 = 0 then XDP_DROP else XDP_PASS) :=
  ⟨(c2_parity_rule (frameBytes fS3) 42).1 (by unfold wellFormedV4 ipv4_ihl; decide),
    (c2_parity_rule (frameBytes fS1) 62).2 (by unfold wellFormedV6; decide)⟩
